import Mathlib

/-!
Verification of the login flow of the CN-Task repository (backend server).

The development shallowly embeds the Express login handler
(`app.post("/api/login")` of the optimized backend server) and its helpers
(`sanitizeInput`, the `validCredentials` Map, the response bodies) as pure
Lean functions, together with a model of the login rate limiter, and proves
the testable properties of the specification about them.
-/

namespace CNTask

/-- A JSON-ish JavaScript value, as the Express body parser may deliver it to
the handler: the request fields `email`, `password`, `rememberMe` are
destructured from `req.body` and may be absent (`undefined`), `null`,
booleans, numbers, strings, arrays or objects.  Arrays and objects are
opaque here: the handler only ever tests their truthiness and passes them to
`sanitizeInput`, which maps every non-string to the empty string. -/
inductive JSValue where
  | undefined
  | null
  | jbool (b : Bool)
  | jnum (n : Int)
  | jstr (s : String)
  | jarr
  | jobj
deriving DecidableEq, Repr

/-- JavaScript truthiness, as used by `!email`, `!password` and
`Boolean(rememberMe)` in the handler. -/
def truthy : JSValue → Bool
  | .undefined => false
  | .null => false
  | .jbool b => b
  | .jnum n => n != 0
  | .jstr s => s != ""
  | .jarr => true
  | .jobj => true

/-- JavaScript string trim: drop leading and trailing whitespace
characters from a character list. -/
def trimChars (l : List Char) : List Char :=
  ((l.dropWhile Char.isWhitespace).reverse.dropWhile Char.isWhitespace).reverse

/-- Global angle-bracket removal, as in the replace call of the server
with the character class of angle brackets: delete every such character. -/
def stripAngles (l : List Char) : List Char :=
  l.filter (fun c => !(c == '<' || c == '>'))

/-- The sanitizeInput helper from the server: non-strings become the
empty string; a string is trimmed and then has all angle brackets
removed. -/
def sanitizeInput : JSValue → String
  | .jstr s => String.mk (stripAngles (trimChars s.data))
  | _ => ""

/-- One credential record of the in-memory table: the value type of the
`validCredentials` Map. -/
structure Cred where
  email : String
  password : String
  username : String
deriving DecidableEq, Repr

/-- The `validCredentials` Map of the handler, as its ordered association
list of (key, record) entries.  JavaScript `Map` iteration follows insertion
order and all five keys are distinct, so an association list is a faithful
model. -/
def validCredentials : List (String × Cred) :=
  [ ("demo@example.com", ⟨"demo@example.com", "password123", "demo"⟩),
    ("admin@example.com", ⟨"admin@example.com", "admin123", "admin"⟩),
    ("test", ⟨"test@example.com", "test123", "test"⟩),
    ("demo", ⟨"demo@example.com", "password123", "demo"⟩),
    ("admin", ⟨"admin@example.com", "admin123", "admin"⟩) ]

/-- The records stored in the table, in insertion order. -/
def credRecords : List Cred := validCredentials.map (·.2)

/-- Direct key lookup in the Map, as the handler does with the sanitized
email. -/
def mapGet (k : String) : Option Cred :=
  (validCredentials.find? (fun e => e.1 == k)).map (·.2)

/-- The fallback loop of the handler: iterate over the Map entries and take
the first record whose email or username equals the identifier and whose
password equals the submitted password. -/
def scanLookup (idf pw : String) : Option Cred :=
  (validCredentials.find? (fun e =>
    (e.2.email == idf || e.2.username == idf) && e.2.password == pw)).map (·.2)

/-- The two-path credential check of the handler: direct Map key access with a
password equality test, falling back to the linear scan only when the key
lookup misses. -/
def twoPathLookup (idf pw : String) : Option Cred :=
  match mapGet idf with
  | some u => if u.password == pw then some u else none
  | none => scanLookup idf pw

/-- A single uniform lookup, following the words of the spec: find the (first)
record whose email or username equals the identifier and whose password
equals the submitted password. -/
def uniformLookup (idf pw : String) : Option Cred :=
  credRecords.find? (fun c => (c.email == idf || c.username == idf) && c.password == pw)

/-- The `user` object of a successful response: exactly the fields
`email`, `username`, `rememberMe` — by construction it has no password
member. -/
structure UserView where
  email : String
  username : String
  rememberMe : Bool
deriving DecidableEq, Repr

/-- A structured login response body together with its HTTP status. -/
structure Resp where
  status : Nat
  success : Bool
  message : String
  field : Option String
  user : Option UserView
deriving DecidableEq, Repr

/-- The 400 "required fields" response; `field` blames the email exactly
when the email was the falsy one (`!email ? "email" : "password"`). -/
def resp400Missing (emailAbsent : Bool) : Resp :=
  { status := 400, success := false,
    message := "Email/username and password are required",
    field := some (if emailAbsent then "email" else "password"),
    user := none }

/-- The 400 response for a too-short sanitized identifier. -/
def resp400ShortEmail : Resp :=
  { status := 400, success := false,
    message := "Email/username must be at least 3 characters",
    field := some "email", user := none }

/-- The 400 response for a too-short sanitized password. -/
def resp400ShortPassword : Resp :=
  { status := 400, success := false,
    message := "Password must be at least 6 characters",
    field := some "password", user := none }

/-- The 400 response for an over-long input; `field` blames the email
exactly when the sanitized email exceeds 100 characters. -/
def resp400TooLong (emailTooLong : Bool) : Resp :=
  { status := 400, success := false, message := "Input too long",
    field := some (if emailTooLong then "email" else "password"),
    user := none }

/-- The 200 success response: message plus the password-free user view. -/
def respSuccess (u : Cred) (rememberMe : Bool) : Resp :=
  { status := 200, success := true, message := "Login successful!",
    field := none,
    user := some { email := u.email, username := u.username, rememberMe := rememberMe } }

/-- The 401 invalid-credentials response: one fixed generic body for every
failed match. -/
def resp401 : Resp :=
  { status := 401, success := false,
    message := "Invalid email/username or password",
    field := some "email", user := none }

/-- The body configured on the login rate limiter, served with status 429. -/
def resp429 : Resp :=
  { status := 429, success := false,
    message := "Too many login attempts. Please try again after 15 minutes.",
    field := some "email", user := none }

/-- The catch-all 500 response of the handler. -/
def resp500 : Resp :=
  { status := 500, success := false,
    message := "Internal server error. Please try again later.",
    field := some "email", user := none }

/-- The login handler (`app.post("/api/login")`), after the rate-limiter
gate: required-field check, sanitization, minimum-length checks, maximum-
length check, two-path credential lookup, and the success / 401 verdict.
The artificial delay does not affect the response value and the
catch branch of the try wrapper is unreachable in this pure model. -/
def loginHandler (email password rememberMe : JSValue) : Resp :=
  if truthy email = false ∨ truthy password = false then
    resp400Missing (!truthy email)
  else
    let sanitizedEmail := sanitizeInput email
    let sanitizedPassword := sanitizeInput password
    if sanitizedEmail = "" ∨ sanitizedEmail.length < 3 then
      resp400ShortEmail
    else if sanitizedPassword = "" ∨ sanitizedPassword.length < 6 then
      resp400ShortPassword
    else if sanitizedEmail.length > 100 ∨ sanitizedPassword.length > 100 then
      resp400TooLong (sanitizedEmail.length > 100)
    else
      match twoPathLookup sanitizedEmail sanitizedPassword with
      | some matchedUser => respSuccess matchedUser (truthy rememberMe)
      | none => resp401

/-- The handler from the sanitization step onwards, as a function of the
two sanitized fields: used to state that every later check and the
credential comparison operate on the sanitized values. -/
def postValidate (sanitizedEmail sanitizedPassword : String) (rememberMe : Bool) : Resp :=
  if sanitizedEmail = "" ∨ sanitizedEmail.length < 3 then
    resp400ShortEmail
  else if sanitizedPassword = "" ∨ sanitizedPassword.length < 6 then
    resp400ShortPassword
  else if sanitizedEmail.length > 100 ∨ sanitizedPassword.length > 100 then
    resp400TooLong (sanitizedEmail.length > 100)
  else
    match twoPathLookup sanitizedEmail sanitizedPassword with
    | some matchedUser => respSuccess matchedUser rememberMe
    | none => resp401

/-- A request field of the shape the interface declares: a string, or
missing altogether (`undefined`, or JSON `null`). -/
def isStringOrMissing : JSValue → Bool
  | .undefined => true
  | .null => true
  | .jstr _ => true
  | _ => false

/-- A request field that is absent in the sense of the spec: missing
(`undefined` / `null`) or the empty string. -/
def isAbsent : JSValue → Bool
  | .undefined => true
  | .null => true
  | .jstr s => s == ""
  | _ => false

/-- All string components of a response body: the message, the blamed
field name, and the email and username of the user view when present. -/
def respStrings (r : Resp) : List String :=
  [r.message] ++
    (match r.field with | some f => [f] | none => []) ++
    (match r.user with | some u => [u.email, u.username] | none => [])

/-- Initial-run check: leadsChars p t holds when p is a leading run of t. -/
def leadsChars : List Char → List Char → Bool
  | [], _ => true
  | _ :: _, [] => false
  | a :: as, b :: bs => a == b && leadsChars as bs

/-- Occurrence check: occursChars p t holds when p occurs contiguously
inside t. -/
def occursChars (p : List Char) : List Char → Bool
  | [] => leadsChars p []
  | c :: cs => leadsChars p (c :: cs) || occursChars p cs

/-- Substring occurrence: occursIn p t holds when the string p occurs
contiguously inside t. -/
def occursIn (p t : String) : Bool := occursChars p.data t.data

/-- Every string that can appear as a component of any login response:
the fixed messages and field names of all branches (success, 400, 401,
429, 500) plus the stored emails and usernames. -/
def safeStrings : List String :=
  [ "Email/username and password are required",
    "Email/username must be at least 3 characters",
    "Password must be at least 6 characters",
    "Input too long",
    "Login successful!",
    "Invalid email/username or password",
    "Too many login attempts. Please try again after 15 minutes.",
    "Internal server error. Please try again later.",
    "email", "password",
    "demo@example.com", "admin@example.com", "test@example.com",
    "demo", "admin", "test" ]

/-- The password column of the credential table. -/
def storedPasswords : List String := credRecords.map Cred.password

/-- One login attempt arriving at the rate-limited endpoint: its arrival
time in milliseconds and its request fields. -/
structure Attempt where
  time : Nat
  email : JSValue
  password : JSValue
  rememberMe : JSValue

/-- Window length of the login limiter: 15 minutes, in milliseconds. -/
def windowMs : Nat := 15 * 60 * 1000

/-- Attempt limit of the login limiter: 5 per window. -/
def maxAttempts : Nat := 5

/-- The counted timestamps still inside the sliding window at time `now`. -/
def recentOf (counted : List Nat) (now : Nat) : List Nat :=
  counted.filter (fun t => now < t + windowMs)

/-- Modelled from the spec: the `loginLimiter` gate in front of the login
handler is the `express-rate-limit` middleware, whose implementation is not
part of this repository; only its configuration (15-minute window, limit 5,
`skipSuccessfulRequests: true`, the 429 body of `resp429`) is.  Following
the description in the spec, an attempt from one source address is admitted to
the handler when fewer than `maxAttempts` counted attempts lie inside the
sliding 15-minute window, rejected with the configured 429 body otherwise,
and an admitted attempt is counted only when its response is not a success
(successful logins do not count against the quota). -/
def limiterRun (counted : List Nat) : List Attempt → List Resp
  | [] => []
  | a :: rest =>
    if maxAttempts ≤ (recentOf counted a.time).length then
      resp429 :: limiterRun (recentOf counted a.time) rest
    else
      loginHandler a.email a.password a.rememberMe ::
        limiterRun
          (if (loginHandler a.email a.password a.rememberMe).success then
            recentOf counted a.time
          else
            a.time :: recentOf counted a.time) rest

/-- The number of responses in a trace that were admitted to the handler
and came back as failures (not rate-limited, not successful). -/
def countFailures (rs : List Resp) : Nat :=
  (rs.filter (fun r => !(r.status == 429) && !r.success)).length

/-- A falsy request field sanitizes to the empty string: every non-string
becomes the empty string, the falsy values are false, 0, the false
boolean, null, undefined and the empty string, and the empty string
trims to itself. -/
theorem sanitize_of_not_truthy {v : JSValue} (h : truthy v = false) :
    sanitizeInput v = "" := by
  cases v with
  | jstr s =>
    have hs : s = "" := by simpa [truthy] using h
    subst hs; rfl
  | jbool b =>
    rfl
  | _ => rfl

/-- Contrapositive: a non-empty sanitized value comes from a truthy field. -/
theorem truthy_of_sanitize_ne {v : JSValue} (h : sanitizeInput v ≠ "") :
    truthy v = true := by
  by_cases ht : truthy v = true
  · exact ht
  · exact absurd (sanitize_of_not_truthy (by simpa using ht)) h

/-- Once both fields are truthy, the handler is `postValidate` applied to
the sanitized fields. -/
theorem loginHandler_eq_postValidate (e p rm : JSValue)
    (he : truthy e = true) (hp : truthy p = true) :
    loginHandler e p rm = postValidate (sanitizeInput e) (sanitizeInput p) (truthy rm) := by
  simp [loginHandler, postValidate, he, hp]

/-- A validated request (both sanitized lengths in range) reaches the
credential lookup, and the response is determined by its verdict. -/
theorem loginHandler_validated (e p rm : JSValue)
    (he3 : 3 ≤ (sanitizeInput e).length) (hp6 : 6 ≤ (sanitizeInput p).length)
    (he100 : (sanitizeInput e).length ≤ 100) (hp100 : (sanitizeInput p).length ≤ 100) :
    loginHandler e p rm =
      (match twoPathLookup (sanitizeInput e) (sanitizeInput p) with
       | some matchedUser => respSuccess matchedUser (truthy rm)
       | none => resp401) := by
  have hene : sanitizeInput e ≠ "" := by
    intro h; rw [h] at he3; simp at he3
  have hpne : sanitizeInput p ≠ "" := by
    intro h; rw [h] at hp6; simp at hp6
  have he' := truthy_of_sanitize_ne hene
  have hp' := truthy_of_sanitize_ne hpne
  rw [loginHandler_eq_postValidate e p rm he' hp']
  rw [postValidate, if_neg (by push_neg; exact ⟨hene, by omega⟩),
    if_neg (by push_neg; exact ⟨hpne, by omega⟩),
    if_neg (by push_neg; omega)]

/-- The fallback scan over Map entries and the uniform lookup over the
records inspect the same fields in the same order, so they agree. -/
theorem scan_eq_uniform (idf pw : String) :
    scanLookup idf pw = uniformLookup idf pw := by
  unfold scanLookup uniformLookup credRecords
  rw [List.find?_map]
  rfl

/-- If no record carrying the identifier as an alias has the submitted
password, the fallback scan comes up empty. -/
theorem scanLookup_eq_none {idf pw : String}
    (h : ∀ c ∈ credRecords, (c.email = idf ∨ c.username = idf) → c.password ≠ pw) :
    scanLookup idf pw = none := by
  unfold scanLookup
  have hfind : validCredentials.find?
      (fun e => (e.2.email == idf || e.2.username == idf) && e.2.password == pw) = none := by
    apply List.find?_eq_none.mpr
    intro x hx hpred
    simp only [Bool.and_eq_true, Bool.or_eq_true, beq_iff_eq] at hpred
    exact h x.2 (List.mem_map_of_mem _ hx) hpred.1 hpred.2
  rw [hfind]
  rfl

/-- A key hit whose stored password differs from the submitted one makes
the two-path check fail outright (the scan is skipped). -/
theorem twoPathLookup_key_miss {idf pw : String} {u : Cred}
    (hk : mapGet idf = some u) (hne : u.password ≠ pw) :
    twoPathLookup idf pw = none := by
  simp [twoPathLookup, hk, hne]

/-- The two-path lookup agrees with the uniform lookup on every identifier
and password. -/
theorem lookup_agrees (idf pw : String) :
    twoPathLookup idf pw = uniformLookup idf pw := by
  rw [← scan_eq_uniform]
  by_cases h1 : idf = "demo@example.com"
  · subst h1
    by_cases hpw : pw = "password123"
    · subst hpw; decide
    · have hnp : (⟨"demo@example.com", "password123", "demo"⟩ : Cred).password ≠ pw :=
        fun h => hpw h.symm
      rw [twoPathLookup_key_miss (by decide) hnp, scanLookup_eq_none (by
        intro c hc halias hpc
        simp [credRecords, validCredentials] at hc
        rcases hc with rfl | rfl | rfl | rfl | rfl <;>
          first
            | exact hnp hpc
            | exact absurd halias (by decide))]
  by_cases h2 : idf = "admin@example.com"
  · subst h2
    by_cases hpw : pw = "admin123"
    · subst hpw; decide
    · have hnp : (⟨"admin@example.com", "admin123", "admin"⟩ : Cred).password ≠ pw :=
        fun h => hpw h.symm
      rw [twoPathLookup_key_miss (by decide) hnp, scanLookup_eq_none (by
        intro c hc halias hpc
        simp [credRecords, validCredentials] at hc
        rcases hc with rfl | rfl | rfl | rfl | rfl <;>
          first
            | exact hnp hpc
            | exact absurd halias (by decide))]
  by_cases h3 : idf = "test"
  · subst h3
    by_cases hpw : pw = "test123"
    · subst hpw; decide
    · have hnp : (⟨"test@example.com", "test123", "test"⟩ : Cred).password ≠ pw :=
        fun h => hpw h.symm
      rw [twoPathLookup_key_miss (by decide) hnp, scanLookup_eq_none (by
        intro c hc halias hpc
        simp [credRecords, validCredentials] at hc
        rcases hc with rfl | rfl | rfl | rfl | rfl <;>
          first
            | exact hnp hpc
            | exact absurd halias (by decide))]
  by_cases h4 : idf = "demo"
  · subst h4
    by_cases hpw : pw = "password123"
    · subst hpw; decide
    · have hnp : (⟨"demo@example.com", "password123", "demo"⟩ : Cred).password ≠ pw :=
        fun h => hpw h.symm
      rw [twoPathLookup_key_miss (by decide) hnp, scanLookup_eq_none (by
        intro c hc halias hpc
        simp [credRecords, validCredentials] at hc
        rcases hc with rfl | rfl | rfl | rfl | rfl <;>
          first
            | exact hnp hpc
            | exact absurd halias (by decide))]
  by_cases h5 : idf = "admin"
  · subst h5
    by_cases hpw : pw = "admin123"
    · subst hpw; decide
    · have hnp : (⟨"admin@example.com", "admin123", "admin"⟩ : Cred).password ≠ pw :=
        fun h => hpw h.symm
      rw [twoPathLookup_key_miss (by decide) hnp, scanLookup_eq_none (by
        intro c hc halias hpc
        simp [credRecords, validCredentials] at hc
        rcases hc with rfl | rfl | rfl | rfl | rfl <;>
          first
            | exact hnp hpc
            | exact absurd halias (by decide))]
  have hmg : mapGet idf = none := by
    unfold mapGet
    have hfind : validCredentials.find? (fun e => e.1 == idf) = none := by
      apply List.find?_eq_none.mpr
      intro x hx hbeq
      rw [beq_iff_eq] at hbeq
      simp [validCredentials] at hx
      rcases hx with rfl | rfl | rfl | rfl | rfl
      · exact h1 hbeq.symm
      · exact h2 hbeq.symm
      · exact h3 hbeq.symm
      · exact h4 hbeq.symm
      · exact h5 hbeq.symm
    rw [hfind]
    rfl
  simp [twoPathLookup, hmg]

/-- C1: submitting identifier "demo" with password "password123" (with any
`rememberMe` value) yields the 200 success response whose user object is
exactly `{email, username, rememberMe}` with `username = "demo"`; the
`UserView` structure has no password member. -/
theorem C1_demo_login_success (rm : JSValue) :
    loginHandler (.jstr "demo") (.jstr "password123") rm =
      { status := 200, success := true, message := "Login successful!",
        field := none,
        user := some { email := "demo@example.com", username := "demo",
                       rememberMe := truthy rm } } := by
  rfl

/-- C4: when each field is a string or missing (the request shape the
interface declares), a request with an absent identifier or password is rejected with
the 400 required-fields response, the blamed field being "email" exactly
when the identifier is absent (including when both are) and "password"
when only the password is absent. -/
theorem C4_missing_fields (e p rm : JSValue)
    (he : isStringOrMissing e = true) (hp : isStringOrMissing p = true)
    (h : isAbsent e = true ∨ isAbsent p = true) :
    loginHandler e p rm =
      { status := 400, success := false,
        message := "Email/username and password are required",
        field := some (if isAbsent e then "email" else "password"),
        user := none } := by
  have habs : ∀ v : JSValue, isStringOrMissing v = true →
      truthy v = !(isAbsent v) := by
    intro v hv
    cases v with
    | undefined => rfl
    | null => rfl
    | jstr s => rfl
    | jbool b => exact Bool.noConfusion hv
    | jnum n => exact Bool.noConfusion hv
    | jarr => exact Bool.noConfusion hv
    | jobj => exact Bool.noConfusion hv
  have he' := habs e he
  have hp' := habs p hp
  rcases h with h | h
  · rw [loginHandler, if_pos (by left; rw [he', h]; rfl)]
    simp [resp400Missing, he', h]
  · by_cases hea : isAbsent e = true
    · rw [loginHandler, if_pos (by left; rw [he', hea]; rfl)]
      simp [resp400Missing, he', hea]
    · rw [loginHandler, if_pos (by right; rw [hp', h]; rfl)]
      simp [resp400Missing, he', h, hea]

/-- C4 witness: identifier missing, password supplied. -/
theorem C4_missing_fields_witness :
    loginHandler .undefined (.jstr "password123") .undefined =
      { status := 400, success := false,
        message := "Email/username and password are required",
        field := some (if isAbsent JSValue.undefined then "email" else "password"),
        user := none } :=
  C4_missing_fields .undefined (.jstr "password123") .undefined
    (by decide) (by decide) (Or.inl (by decide))

/-- C5: with both fields present (truthy), a sanitized identifier shorter
than 3 characters is rejected with 400 blaming "email" — regardless of the
password, so the identifier check comes first — and otherwise a sanitized
password shorter than 6 characters is rejected with 400 blaming
"password". -/
theorem C5_min_lengths (e p rm : JSValue)
    (he : truthy e = true) (hp : truthy p = true) :
    ((sanitizeInput e).length < 3 →
        loginHandler e p rm = resp400ShortEmail) ∧
    (3 ≤ (sanitizeInput e).length → (sanitizeInput p).length < 6 →
        loginHandler e p rm = resp400ShortPassword) := by
  rw [loginHandler_eq_postValidate e p rm he hp]
  constructor
  · intro hlt
    rw [postValidate, if_pos (Or.inr hlt)]
  · intro hge hlt
    have hene : sanitizeInput e ≠ "" := by
      intro hh; rw [hh] at hge; simp at hge
    rw [postValidate, if_neg (by push_neg; exact ⟨hene, by omega⟩),
      if_pos (Or.inr hlt)]

/-- C5 witness: a 2-character identifier and a 5-character password. -/
theorem C5_min_lengths_witness :
    loginHandler (.jstr "ab") (.jstr "abcde") .undefined = resp400ShortEmail ∧
    loginHandler (.jstr "abc") (.jstr "abcde") .undefined = resp400ShortPassword :=
  ⟨(C5_min_lengths (.jstr "ab") (.jstr "abcde") .undefined
      (by decide) (by decide)).1 (by decide),
   (C5_min_lengths (.jstr "abc") (.jstr "abcde") .undefined
      (by decide) (by decide)).2 (by decide) (by decide)⟩

/-- C8: the two-path lookup (direct Map key access with password test,
falling back to a linear alias scan on a key miss) returns the same verdict
and the same matched record as the single uniform lookup that finds a
record whose email or username equals the identifier and whose password
equals the submitted password. -/
theorem C8_two_path_refines_uniform (idf pw : String) :
    twoPathLookup idf pw = uniformLookup idf pw :=
  lookup_agrees idf pw

/-- Mirror of `scanLookup_eq_none` for the uniform lookup. -/
theorem uniformLookup_eq_none {idf pw : String}
    (h : ∀ c ∈ credRecords, (c.email = idf ∨ c.username = idf) → c.password ≠ pw) :
    uniformLookup idf pw = none := by
  rw [← scan_eq_uniform]
  exact scanLookup_eq_none h

/-- C2: two validated login requests that both fail to match — the first
with an identifier carried by no record, the second with a known identifier
but a wrong password — receive literally identical responses: the one fixed
401 invalid-credentials body, which reveals nothing about which part was
wrong. -/
theorem C2_indistinguishable_401 (e1 p1 e2 p2 : String) (rm1 rm2 : JSValue)
    (h1e : 3 ≤ (sanitizeInput (.jstr e1)).length)
    (h1p : 6 ≤ (sanitizeInput (.jstr p1)).length)
    (h1e' : (sanitizeInput (.jstr e1)).length ≤ 100)
    (h1p' : (sanitizeInput (.jstr p1)).length ≤ 100)
    (h2e : 3 ≤ (sanitizeInput (.jstr e2)).length)
    (h2p : 6 ≤ (sanitizeInput (.jstr p2)).length)
    (h2e' : (sanitizeInput (.jstr e2)).length ≤ 100)
    (h2p' : (sanitizeInput (.jstr p2)).length ≤ 100)
    (hunknown : ∀ c ∈ credRecords,
      c.email ≠ sanitizeInput (.jstr e1) ∧ c.username ≠ sanitizeInput (.jstr e1))
    (hknown : ∃ c ∈ credRecords,
      c.email = sanitizeInput (.jstr e2) ∨ c.username = sanitizeInput (.jstr e2))
    (hwrong : ∀ c ∈ credRecords,
      (c.email = sanitizeInput (.jstr e2) ∨ c.username = sanitizeInput (.jstr e2)) →
        c.password ≠ sanitizeInput (.jstr p2)) :
    loginHandler (.jstr e1) (.jstr p1) rm1 = resp401 ∧
    loginHandler (.jstr e2) (.jstr p2) rm2 = resp401 ∧
    loginHandler (.jstr e1) (.jstr p1) rm1 = loginHandler (.jstr e2) (.jstr p2) rm2 ∧
    resp401.status = 401 := by
  have hn1 : uniformLookup (sanitizeInput (.jstr e1)) (sanitizeInput (.jstr p1)) = none :=
    uniformLookup_eq_none (fun c hc halias _ => absurd halias (by
      obtain ⟨hce, hcu⟩ := hunknown c hc
      rintro (h | h)
      · exact hce h
      · exact hcu h))
  have hn2 : uniformLookup (sanitizeInput (.jstr e2)) (sanitizeInput (.jstr p2)) = none :=
    uniformLookup_eq_none hwrong
  have hr1 : loginHandler (.jstr e1) (.jstr p1) rm1 = resp401 := by
    rw [loginHandler_validated _ _ _ h1e h1p h1e' h1p', lookup_agrees, hn1]
  have hr2 : loginHandler (.jstr e2) (.jstr p2) rm2 = resp401 := by
    rw [loginHandler_validated _ _ _ h2e h2p h2e' h2p', lookup_agrees, hn2]
  exact ⟨hr1, hr2, hr1.trans hr2.symm, rfl⟩

/-- C2 witness: an unknown identifier versus a known identifier with a
wrong password, both otherwise valid. -/
theorem C2_indistinguishable_401_witness :
    loginHandler (.jstr "ghost@example.com") (.jstr "password123") .undefined = resp401 ∧
    loginHandler (.jstr "demo@example.com") (.jstr "wrongpass1") .null = resp401 ∧
    loginHandler (.jstr "ghost@example.com") (.jstr "password123") .undefined =
      loginHandler (.jstr "demo@example.com") (.jstr "wrongpass1") .null ∧
    resp401.status = 401 :=
  C2_indistinguishable_401 "ghost@example.com" "password123"
    "demo@example.com" "wrongpass1" .undefined .null
    (by decide) (by decide) (by decide) (by decide)
    (by decide) (by decide) (by decide) (by decide)
    (by decide) (by decide) (by decide)

/-- C6: whenever either sanitized field exceeds 100 characters, the
response status is 400, whatever the rest of the request looks like. -/
theorem C6_oversized_input_400 (e p rm : JSValue)
    (h : 100 < (sanitizeInput e).length ∨ 100 < (sanitizeInput p).length) :
    (loginHandler e p rm).status = 400 := by
  by_cases he : truthy e = true
  · by_cases hp : truthy p = true
    · rw [loginHandler_eq_postValidate e p rm he hp]
      unfold postValidate
      split_ifs with hA hB
      · rfl
      · rfl
      · rfl
    · have hp' : truthy p = false := by
        cases hb : truthy p
        · rfl
        · exact absurd hb hp
      unfold loginHandler
      rw [if_pos (Or.inr hp')]
      rfl
  · have he' : truthy e = false := by
      cases hb : truthy e
      · rfl
      · exact absurd hb he
    unfold loginHandler
    rw [if_pos (Or.inl he')]
    rfl

/-- C6 witness: a 101-character identifier with an otherwise valid
password. -/
theorem C6_oversized_input_400_witness :
    (loginHandler (.jstr (String.mk (List.replicate 101 'a')))
      (.jstr "password123") .undefined).status = 400 :=
  C6_oversized_input_400 (.jstr (String.mk (List.replicate 101 'a')))
    (.jstr "password123") .undefined (Or.inl (by decide))

/-- C7: sanitization first trims leading and trailing whitespace and then
deletes every angle bracket, and once both fields are truthy the rest of
the handler (all length checks and the credential comparison) is a function
of the two sanitized values only. -/
theorem C7_sanitize_then_validate :
    (∀ s : String, sanitizeInput (.jstr s) =
        String.mk ((((s.data.dropWhile Char.isWhitespace).reverse.dropWhile
            Char.isWhitespace).reverse).filter (fun c => !(c == '<' || c == '>')))) ∧
    (∀ e p rm : JSValue, truthy e = true → truthy p = true →
        loginHandler e p rm =
          postValidate (sanitizeInput e) (sanitizeInput p) (truthy rm)) :=
  ⟨fun _ => rfl, loginHandler_eq_postValidate⟩

/-- C7 witness: a concrete instance of both conjuncts, with the
truthiness hypotheses discharged by evaluation. -/
theorem C7_sanitize_then_validate_witness :
    sanitizeInput (.jstr " <demo> ") = "demo" ∧
    loginHandler (.jstr " <demo> ") (.jstr "password123") .null =
      postValidate (sanitizeInput (.jstr " <demo> "))
        (sanitizeInput (.jstr "password123")) (truthy .null) :=
  ⟨by decide,
   C7_sanitize_then_validate.2 (.jstr " <demo> ") (.jstr "password123") .null
     (by decide) (by decide)⟩

/-- C10: a truthy non-string field sanitizes to the empty string, so the
request is stopped with one of the two minimum-length 400 responses before
any credential comparison, and never succeeds. -/
theorem C10_nonstring_never_succeeds (e p rm : JSValue)
    (he : truthy e = true) (hp : truthy p = true)
    (h : (∀ s, e ≠ .jstr s) ∨ (∀ s, p ≠ .jstr s)) :
    (loginHandler e p rm = resp400ShortEmail ∨
      loginHandler e p rm = resp400ShortPassword) ∧
    (loginHandler e p rm).success = false ∧
    (loginHandler e p rm).status = 400 := by
  have hsan : ∀ v : JSValue, (∀ s, v ≠ .jstr s) → sanitizeInput v = "" := by
    intro v hv
    cases v with
    | jstr s => exact absurd rfl (hv s)
    | undefined => rfl
    | null => rfl
    | jbool b => rfl
    | jnum n => rfl
    | jarr => rfl
    | jobj => rfl
  rw [loginHandler_eq_postValidate e p rm he hp]
  rcases h with h | h
  · unfold postValidate
    rw [if_pos (Or.inl (hsan e h))]
    exact ⟨Or.inl rfl, rfl, rfl⟩
  · by_cases hA : sanitizeInput e = "" ∨ (sanitizeInput e).length < 3
    · unfold postValidate
      rw [if_pos hA]
      exact ⟨Or.inl rfl, rfl, rfl⟩
    · unfold postValidate
      rw [if_neg hA, if_pos (Or.inl (hsan p h))]
      exact ⟨Or.inr rfl, rfl, rfl⟩

/-- C10 witness: an array identifier (truthy, non-string) with a valid
password string. -/
theorem C10_nonstring_never_succeeds_witness :
    (loginHandler .jarr (.jstr "password123") .undefined = resp400ShortEmail ∨
      loginHandler .jarr (.jstr "password123") .undefined = resp400ShortPassword) ∧
    (loginHandler .jarr (.jstr "password123") .undefined).success = false ∧
    (loginHandler .jarr (.jstr "password123") .undefined).status = 400 :=
  C10_nonstring_never_succeeds .jarr (.jstr "password123") .undefined
    (by decide) (by decide) (Or.inl (fun s hh => JSValue.noConfusion hh))

/-- A successful two-path lookup returns a record of the table. -/
theorem twoPath_mem {idf pw : String} {u : Cred}
    (h : twoPathLookup idf pw = some u) : u ∈ credRecords := by
  rw [lookup_agrees] at h
  unfold uniformLookup at h
  exact List.mem_of_find?_eq_some h

/-- Every login response is one of the fixed error bodies or a success
body built from a table record. -/
theorem handler_resp_cases (e p rm : JSValue) :
    loginHandler e p rm = resp400Missing true ∨
    loginHandler e p rm = resp400Missing false ∨
    loginHandler e p rm = resp400ShortEmail ∨
    loginHandler e p rm = resp400ShortPassword ∨
    loginHandler e p rm = resp400TooLong true ∨
    loginHandler e p rm = resp400TooLong false ∨
    loginHandler e p rm = resp401 ∨
    ∃ u ∈ credRecords, loginHandler e p rm = respSuccess u (truthy rm) := by
  by_cases he : truthy e = true
  · by_cases hp : truthy p = true
    · rw [loginHandler_eq_postValidate e p rm he hp]
      unfold postValidate
      split_ifs with h1 h2 h3
      · right; right; left; rfl
      · right; right; right; left; rfl
      · rcases Nat.lt_or_ge 100 (sanitizeInput e).length with hgt | hle
        · right; right; right; right; left
          rw [decide_eq_true hgt]
        · right; right; right; right; right; left
          rw [decide_eq_false (by omega)]
      · cases hlk : twoPathLookup (sanitizeInput e) (sanitizeInput p) with
        | some u =>
          right; right; right; right; right; right; right
          exact ⟨u, twoPath_mem hlk, rfl⟩
        | none =>
          right; right; right; right; right; right; left
          rfl
    · have hp' : truthy p = false := by
        cases hb : truthy p
        · rfl
        · exact absurd hb hp
      right; left
      unfold loginHandler
      rw [if_pos (Or.inr hp'), he]
      rfl
  · have he' : truthy e = false := by
      cases hb : truthy e
      · rfl
      · exact absurd hb he
    left
    unfold loginHandler
    rw [if_pos (Or.inl he'), he']
    rfl

/-- No stored password occurs as a substring of any safe string. -/
theorem mem_safe_no_stored :
    ∀ t ∈ safeStrings, ∀ sp ∈ storedPasswords, occursIn sp t = false := by decide

/-- Every string of every fixed (non-success) response body is safe. -/
theorem resp_strings_safe_aux :
    ∀ r ∈ [resp400Missing true, resp400Missing false, resp400ShortEmail,
        resp400ShortPassword, resp400TooLong true, resp400TooLong false,
        resp401, resp429, resp500],
      ∀ t ∈ respStrings r, t ∈ safeStrings := by decide

/-- Every string of a success body built from a table record is safe. -/
theorem success_strings_safe_aux (u : Cred) (hu : u ∈ credRecords) (b : Bool) :
    ∀ t ∈ respStrings (respSuccess u b), t ∈ safeStrings := by
  simp only [credRecords, validCredentials, List.map] at hu
  fin_cases hu <;> intro t ht <;> simp [respStrings, respSuccess] at ht <;>
    rcases ht with rfl | rfl | rfl <;> decide

/-- C3 (amended): every string component of every response branch
(success, 400, 401, 429, 500) belongs to the fixed set `safeStrings` of
constant messages, field names and stored emails/usernames; no stored
password ever occurs as a substring of any of them; and consequently any
string occurring in a response — in particular a submitted password —
already occurs in one of these fixed strings. -/
theorem C3_no_password_in_responses :
    ∀ e p rm : JSValue, ∀ t : String,
      (t ∈ respStrings (loginHandler e p rm) ∨ t ∈ respStrings resp429 ∨
        t ∈ respStrings resp500) →
      t ∈ safeStrings ∧
      (∀ sp ∈ storedPasswords, occursIn sp t = false) ∧
      (∀ s : String, occursIn s t = true → ∃ c ∈ safeStrings, occursIn s c = true) := by
  intro e p rm t ht
  have hsafe : t ∈ safeStrings := by
    rcases ht with ht | ht | ht
    · rcases handler_resp_cases e p rm with h|h|h|h|h|h|h|⟨u, hu, h⟩ <;> rw [h] at ht <;>
        first
          | exact resp_strings_safe_aux _ (by decide) t ht
          | exact success_strings_safe_aux u hu _ t ht
    · exact resp_strings_safe_aux _ (by decide) t ht
    · exact resp_strings_safe_aux _ (by decide) t ht
  exact ⟨hsafe, fun sp hsp => mem_safe_no_stored t hsafe sp hsp,
    fun s hs => ⟨t, hsafe, hs⟩⟩

/-- C3 witness: the strings of a concrete successful response. -/
theorem C3_no_password_in_responses_witness :
    "demo@example.com" ∈ safeStrings ∧
    (∀ sp ∈ storedPasswords, occursIn sp "demo@example.com" = false) ∧
    (∀ s : String, occursIn s "demo@example.com" = true →
      ∃ c ∈ safeStrings, occursIn s c = true) :=
  C3_no_password_in_responses (.jstr "demo") (.jstr "password123") .undefined
    "demo@example.com" (Or.inl (by decide))

/-- C3 counterexample to the claim as stated: submitting the password
"password" with a missing identifier yields the 400 required-fields
response, whose message contains the submitted password string
("…and password are required"). -/
theorem C3_counterexample :
    (respStrings (loginHandler .undefined (.jstr "password") .undefined)).any
      (fun t => occursIn "password" t) = true := by decide

/-- When every counted timestamp is still within the window at `now`, the
window filter keeps all of them. -/
theorem recentOf_all (counted : List Nat) (now : Nat)
    (h : ∀ t ∈ counted, now < t + windowMs) : recentOf counted now = counted :=
  List.filter_eq_self.mpr (fun t ht => decide_eq_true (h t ht))

/-- An admitted attempt is passed to the handler; a failed response adds
its timestamp to the counted list. -/
theorem limiterRun_step_fail (counted : List Nat) (a : Attempt) (rest : List Attempt)
    (hlt : (recentOf counted a.time).length < maxAttempts)
    (hfail : (loginHandler a.email a.password a.rememberMe).success = false) :
    limiterRun counted (a :: rest) =
      loginHandler a.email a.password a.rememberMe ::
        limiterRun (a.time :: recentOf counted a.time) rest := by
  rw [limiterRun, if_neg (by omega), hfail]
  rfl

/-- An attempt arriving with a full window is rejected with the 429 body
and is not itself counted. -/
theorem limiterRun_step_reject (counted : List Nat) (a : Attempt) (rest : List Attempt)
    (hge : maxAttempts ≤ (recentOf counted a.time).length) :
    limiterRun counted (a :: rest) =
      resp429 :: limiterRun (recentOf counted a.time) rest := by
  rw [limiterRun, if_pos hge]

/-- The handler itself never answers with status 429. -/
theorem loginHandler_status_ne_429 (e p rm : JSValue) :
    (loginHandler e p rm).status ≠ 429 := by
  rcases handler_resp_cases e p rm with h|h|h|h|h|h|h|⟨u, hu, h⟩ <;> rw [h] <;>
    first
      | decide
      | simp [respSuccess]

/-- Cap invariant: with all attempt times inside one window starting at
`t0` and all counted timestamps at least `t0`, the run admits at most
`maxAttempts - counted.length` further failing attempts. -/
theorem limiter_cap_aux (t0 : Nat) (attempts : List Attempt) :
    ∀ counted : List Nat,
      (∀ a ∈ attempts, t0 ≤ a.time ∧ a.time < t0 + windowMs) →
      (∀ t ∈ counted, t0 ≤ t) →
      countFailures (limiterRun counted attempts) ≤ maxAttempts - counted.length := by
  induction attempts with
  | nil =>
    intro counted _ _
    simp [limiterRun, countFailures]
  | cons a rest ih =>
    intro counted hT hC
    have hrec : recentOf counted a.time = counted :=
      recentOf_all _ _ (fun t ht => by
        have h1 := hC t ht
        have h2 := (hT a (by simp)).2
        omega)
    rw [limiterRun, hrec]
    by_cases hge : maxAttempts ≤ counted.length
    · rw [if_pos hge]
      have hdrop : countFailures (resp429 :: limiterRun counted rest) =
          countFailures (limiterRun counted rest) := by
        simp [countFailures, resp429]
      rw [hdrop]
      exact ih counted (fun a' ha' => hT a' (List.mem_cons_of_mem _ ha')) hC
    · rw [if_neg hge]
      cases hs : (loginHandler a.email a.password a.rememberMe).success with
      | true =>
        have hdrop : countFailures (loginHandler a.email a.password a.rememberMe ::
            limiterRun counted rest) = countFailures (limiterRun counted rest) := by
          simp [countFailures, hs]
        rw [if_pos (rfl : (true : Bool) = true), hdrop]
        exact ih counted (fun a' ha' => hT a' (List.mem_cons_of_mem _ ha')) hC
      | false =>
        simp only [if_neg Bool.false_ne_true]
        have hkeep : countFailures (loginHandler a.email a.password a.rememberMe ::
            limiterRun (a.time :: counted) rest) =
            countFailures (limiterRun (a.time :: counted) rest) + 1 := by
          have h429 : ((loginHandler a.email a.password a.rememberMe).status == 429) = false :=
            beq_eq_false_iff_ne.mpr (loginHandler_status_ne_429 a.email a.password a.rememberMe)
          simp [countFailures, hs, h429]
        rw [hkeep]
        have hrest := ih (a.time :: counted)
          (fun a' ha' => hT a' (List.mem_cons_of_mem _ ha'))
          (fun t ht => by
            rcases List.mem_cons.mp ht with rfl | ht'
            · exact (hT a (by simp)).1
            · exact hC t ht')
        have hlen : (a.time :: counted).length = counted.length + 1 := rfl
        omega

/-- C9 (limiter modelled from the spec, the middleware itself being a
dependency outside this repository): successful logins do not count
against the quota; six wrong-credential attempts inside one 15-minute
window get the first five through to the handler and the sixth the fixed
429 retry-after body blaming "email", whatever the sixth attempt's
credentials; and at most `maxAttempts` failing attempts are admitted per
window. -/
theorem C9_rate_limiter :
    (∀ (counted : List Nat) (a : Attempt) (rest : List Attempt),
        (recentOf counted a.time).length < maxAttempts →
        (loginHandler a.email a.password a.rememberMe).success = true →
        limiterRun counted (a :: rest) =
          loginHandler a.email a.password a.rememberMe ::
            limiterRun (recentOf counted a.time) rest) ∧
    (∀ a1 a2 a3 a4 a5 a6 : Attempt,
        a1.time ≤ a2.time → a2.time ≤ a3.time → a3.time ≤ a4.time →
        a4.time ≤ a5.time → a5.time ≤ a6.time → a6.time < a1.time + windowMs →
        (loginHandler a1.email a1.password a1.rememberMe).success = false →
        (loginHandler a2.email a2.password a2.rememberMe).success = false →
        (loginHandler a3.email a3.password a3.rememberMe).success = false →
        (loginHandler a4.email a4.password a4.rememberMe).success = false →
        (loginHandler a5.email a5.password a5.rememberMe).success = false →
        limiterRun [] [a1, a2, a3, a4, a5, a6] =
          [loginHandler a1.email a1.password a1.rememberMe,
           loginHandler a2.email a2.password a2.rememberMe,
           loginHandler a3.email a3.password a3.rememberMe,
           loginHandler a4.email a4.password a4.rememberMe,
           loginHandler a5.email a5.password a5.rememberMe,
           resp429] ∧ resp429.status = 429 ∧ resp429.field = some "email") ∧
    (∀ (t0 : Nat) (attempts : List Attempt),
        (∀ a ∈ attempts, t0 ≤ a.time ∧ a.time < t0 + windowMs) →
        countFailures (limiterRun [] attempts) ≤ maxAttempts) := by
  refine ⟨?_, ?_, ?_⟩
  · intro counted a rest hlt hsucc
    rw [limiterRun, if_neg (by omega), hsucc]
    rfl
  · intro a1 a2 a3 a4 a5 a6 h12 h23 h34 h45 h56 h6w f1 f2 f3 f4 f5
    have r1 : recentOf [] a1.time = [] := rfl
    have r2 : recentOf [a1.time] a2.time = [a1.time] :=
      recentOf_all _ _ (by intro t ht; simp at ht; subst ht; omega)
    have r3 : recentOf [a2.time, a1.time] a3.time = [a2.time, a1.time] :=
      recentOf_all _ _ (by
        intro t ht; simp at ht
        rcases ht with rfl | rfl <;> omega)
    have r4 : recentOf [a3.time, a2.time, a1.time] a4.time =
        [a3.time, a2.time, a1.time] :=
      recentOf_all _ _ (by
        intro t ht; simp at ht
        rcases ht with rfl | rfl | rfl <;> omega)
    have r5 : recentOf [a4.time, a3.time, a2.time, a1.time] a5.time =
        [a4.time, a3.time, a2.time, a1.time] :=
      recentOf_all _ _ (by
        intro t ht; simp at ht
        rcases ht with rfl | rfl | rfl | rfl <;> omega)
    have r6 : recentOf [a5.time, a4.time, a3.time, a2.time, a1.time] a6.time =
        [a5.time, a4.time, a3.time, a2.time, a1.time] :=
      recentOf_all _ _ (by
        intro t ht; simp at ht
        rcases ht with rfl | rfl | rfl | rfl | rfl <;> omega)
    refine ⟨?_, rfl, rfl⟩
    rw [limiterRun_step_fail _ _ _ (by rw [r1]; simp [maxAttempts]) f1, r1,
      limiterRun_step_fail _ _ _ (by rw [r2]; simp [maxAttempts]) f2, r2,
      limiterRun_step_fail _ _ _ (by rw [r3]; simp [maxAttempts]) f3, r3,
      limiterRun_step_fail _ _ _ (by rw [r4]; simp [maxAttempts]) f4, r4,
      limiterRun_step_fail _ _ _ (by rw [r5]; simp [maxAttempts]) f5, r5,
      limiterRun_step_reject _ _ _ (by rw [r6]; simp [maxAttempts])]
    rfl
  · intro t0 attempts h
    simpa using limiter_cap_aux t0 attempts [] h (by simp)

/-- C9 witness: six same-source wrong-credential attempts inside one
window; the first five reach the handler and fail with 401, the sixth is
rate-limited. -/
theorem C9_rate_limiter_witness :
    limiterRun []
      [⟨0, .jstr "nobody@example.com", .jstr "wrongpass1", .undefined⟩,
       ⟨1, .jstr "nobody@example.com", .jstr "wrongpass1", .undefined⟩,
       ⟨2, .jstr "nobody@example.com", .jstr "wrongpass1", .undefined⟩,
       ⟨3, .jstr "nobody@example.com", .jstr "wrongpass1", .undefined⟩,
       ⟨4, .jstr "nobody@example.com", .jstr "wrongpass1", .undefined⟩,
       ⟨5, .jstr "demo@example.com", .jstr "password123", .undefined⟩] =
      [resp401, resp401, resp401, resp401, resp401, resp429] :=
  ((C9_rate_limiter.2.1
      ⟨0, .jstr "nobody@example.com", .jstr "wrongpass1", .undefined⟩
      ⟨1, .jstr "nobody@example.com", .jstr "wrongpass1", .undefined⟩
      ⟨2, .jstr "nobody@example.com", .jstr "wrongpass1", .undefined⟩
      ⟨3, .jstr "nobody@example.com", .jstr "wrongpass1", .undefined⟩
      ⟨4, .jstr "nobody@example.com", .jstr "wrongpass1", .undefined⟩
      ⟨5, .jstr "demo@example.com", .jstr "password123", .undefined⟩
      (by decide) (by decide) (by decide) (by decide) (by decide) (by decide)
      (by decide) (by decide) (by decide) (by decide) (by decide)).1).trans
    (by decide)

end CNTask
